import Mathlib

/-!
Shallow embedding of the Wolfi CUDA base-image builder (`src/main.py`) and
proofs about its tag derivation, task-matrix orchestration, publishing
workflow, and error aggregation.

Conventions of the embedding:
* Python strings are Lean `String`s; `str.split("/")` is modelled character
  by character by `splitChars` / `pySplit` (Python keeps empty fields when a
  separator is given, and `"".split("/") == [""]`).
* `Optional[T]` is `Option T`; Python truthiness of an optional string
  (`if platform:` is false both for `None` and `""`) is `pyTruthy`.
* The external build engine (dagger) is an opaque collaborator: an `Engine`
  maps a destination URI to `none` (publish returned normally) or
  `some e` (publish raised exception message `e`), matching
  `await container.publish(uri)`.
* A coroutine that returns normally or raises is `Option String` (the raised
  exception message), exactly the shape `asyncio.gather(...,
  return_exceptions=True)` exposes: each entry of `results` is either the
  `None` return value or the exception object.
-/

/-- `OS_VERSIONS` from `src/main.py`. -/
def OS_VERSIONS : List String := ["wolfi"]

/-- `CUDA_VERSIONS` from `src/main.py`. -/
def CUDA_VERSIONS : List String := ["12.4.1", "12.6.0"]

/-- `PYTHON_VERSIONS` from `src/main.py`. -/
def PYTHON_VERSIONS : List String := ["3.11", "3.12"]

/-- `PLATFORMS` from `src/main.py`. -/
def PLATFORMS : List String := ["linux/amd64", "linux/arm64"]

/-- `FRAMEWORK_CONFIGS` from `src/main.py`: an insertion-ordered dict of
`(tag_name, conda_packages_to_install)`. -/
def FRAMEWORK_CONFIGS : List (String × String) :=
  [("base", ""), ("pytorch", "pytorch"), ("tensorflow", "tensorflow")]

/-- Python `str.split("/")` on the character list: fields between `'/'`
separators, empty fields kept, `[] ↦ [[]]` (Python: `"".split("/") == [""]`). -/
def splitChars : List Char → List (List Char)
  | [] => [[]]
  | c :: rest =>
    let r := splitChars rest
    if c = '/' then [] :: r
    else (c :: r.headD []) :: r.tail

/-- Python `s.split("/")` on strings. -/
def pySplit (s : String) : List String :=
  (splitChars s.data).map fun cs => String.mk cs

/-- Python `l[-1]`: the last element. `split` never returns an empty list, so
the `""` default of `getLast?` is never consulted where we use it. -/
def pyLast (l : List String) : String :=
  (l.getLast?).getD ""

/-- `get_image_reference` from `src/main.py` (lines 40-53): build the base tag
`{os}_python_{py}_cuda_{cuda}_{framework}`, then, when `platform` is truthy,
append `_{arch}` where `arch = platform.split("/")[-1]`. -/
def get_image_reference (os_version cuda_version framework python_version : String)
    (platform : Option String) : String :=
  let base_ref :=
    os_version ++ "_python_" ++ python_version ++ "_cuda_" ++ cuda_version ++ "_" ++ framework
  match platform with
  | none => base_ref
  | some p =>
    if p = "" then base_ref
    else base_ref ++ "_" ++ pyLast (pySplit p)

example : get_image_reference "wolfi" "12.4.1" "base" "3.11" none =
    "wolfi_python_3.11_cuda_12.4.1_base" := by decide

example : get_image_reference "wolfi" "12.4.1" "base" "3.11" (some "linux/arm64") =
    "wolfi_python_3.11_cuda_12.4.1_base_arm64" := by decide

example : get_image_reference "wolfi" "12.4.1" "base" "3.11" (some "amd64") =
    "wolfi_python_3.11_cuda_12.4.1_base_amd64" := by decide

/-- The external build engine's `publish` call, keyed by destination URI:
`none` means the push succeeded, `some e` means it raised exception `e`. -/
def Engine : Type := String → Option String

/-- `f"ghcr.io/{username}/{repository}:{ref}"` from `src/main.py`. -/
def imageUriOf (username repository ref : String) : String :=
  "ghcr.io/" ++ username ++ "/" ++ repository ++ ":" ++ ref

/-- Observable trace of one `build_and_publish_image` coroutine. -/
structure PublishOutcome where
  /-- Platform qualifier of each build specification constructed by
  `build_container`, in construction order (`dagger.Platform(platform)` when
  supplied, `none` for `client.container()`). -/
  specs : List (Option String)
  /-- Destination URIs on which `container.publish` was invoked, in order. -/
  attempts : List String
  /-- Destination URIs whose publish succeeded, in order. -/
  published : List String
  /-- Messages logged by this coroutine (info and error). -/
  logs : List String
  /-- `none` when the coroutine returned normally, `some e` when it re-raised
  exception `e` out of the task boundary. -/
  raised : Option String
  deriving DecidableEq, Repr

/-- The `for platform in platforms:` loop of the multi-platform branch
(`src/main.py` lines 190-212): per platform, build the container spec, then
`await container.publish(platform_uri)`; an exception aborts the loop at that
platform (later specs are never constructed).  Returns the constructed specs,
attempted URIs, successfully published URIs, per-platform info logs, and the
exception, if any. -/
def multiPlatformLoop (engine : Engine)
    (os_version cuda_version framework python_version username repository : String) :
    List String →
      List (Option String) × List String × List String × List String × Option String
  | [] => ([], [], [], [], none)
  | platform :: rest =>
    let platform_ref :=
      get_image_reference os_version cuda_version framework python_version (some platform)
    let platform_uri := imageUriOf username repository platform_ref
    match engine platform_uri with
    | some e => ([some platform], [platform_uri], [], [], some e)
    | none =>
      let (specs, attempts, published, logs, raised) :=
        multiPlatformLoop engine os_version cuda_version framework python_version
          username repository rest
      (some platform :: specs, platform_uri :: attempts, platform_uri :: published,
       ("Published platform-specific: " ++ platform_uri) :: logs, raised)

/-- `build_and_publish_image` from `src/main.py` (lines 127-236).

With more than one platform configured it runs `multiPlatformLoop` and — on
success of every per-architecture push — only *logs*
`Successfully published multi-arch: {image_uri}` (the code collects
`platform_variants` but never publishes the unqualified `image_uri`).
Otherwise it builds one container whose platform is `platforms[0]` when the
list is truthy and publishes the unqualified `image_uri`.  Any exception is
caught, logged as `Failed to build {img_ref}: {e}`, and re-raised.

`logs` records the publish-related log records (per-platform publish
confirmations, the multi-arch confirmation, the success message, the failure
record); the initial progress banners (`Building image: ...`,
`Building multi-platform image for: ...`) are not modelled. -/
def build_and_publish_image (engine : Engine)
    (os_version cuda_version framework framework_packages python_version : String)
    (repository username password : String)
    (platforms : Option (List String)) : PublishOutcome :=
  let img_ref := get_image_reference os_version cuda_version framework python_version none
  let image_uri := imageUriOf username repository img_ref
  match platforms with
  | some pls =>
    if pls.length > 1 then
      let (specs, attempts, published, logs, raised) :=
        multiPlatformLoop engine os_version cuda_version framework python_version
          username repository pls
      match raised with
      | none =>
        ⟨specs, attempts, published,
         logs ++ ["Successfully published multi-arch: " ++ image_uri], none⟩
      | some e =>
        ⟨specs, attempts, published,
         logs ++ ["Failed to build " ++ img_ref ++ ": " ++ e], some e⟩
    else
      let platform : Option String := if pls.isEmpty then none else pls.head?
      match engine image_uri with
      | none =>
        ⟨[platform], [image_uri], [image_uri],
         ["Successfully published: " ++ image_uri], none⟩
      | some e =>
        ⟨[platform], [image_uri], [],
         ["Failed to build " ++ img_ref ++ ": " ++ e], some e⟩
  | none =>
    match engine image_uri with
    | none =>
      ⟨[none], [image_uri], [image_uri],
       ["Successfully published: " ++ image_uri], none⟩
    | some e =>
      ⟨[none], [image_uri], [],
       ["Failed to build " ++ img_ref ++ ": " ++ e], some e⟩

/-- One cell of the build matrix: the loop variables of the task
comprehension in `main` (`src/main.py` lines 263-280). -/
structure BuildCell where
  os_version : String
  cuda_version : String
  framework : String
  framework_packages : String
  python_version : String
  deriving DecidableEq, Repr

/-- The task list order of `main`: `for os_version in OS_VERSIONS for
cuda_version in CUDA_VERSIONS for framework, packages in
FRAMEWORK_CONFIGS.items() for python_version in PYTHON_VERSIONS`. -/
def matrixCells : List BuildCell :=
  OS_VERSIONS.bind fun osv =>
    CUDA_VERSIONS.bind fun cuv =>
      FRAMEWORK_CONFIGS.bind fun fw =>
        PYTHON_VERSIONS.map fun pyv => ⟨osv, cuv, fw.1, fw.2, pyv⟩

/-- Run the `build_and_publish_image` coroutine of one matrix cell. -/
def runCell (engine : Engine) (repository username password : String)
    (platforms : List String) (cell : BuildCell) : PublishOutcome :=
  build_and_publish_image engine cell.os_version cell.cuda_version cell.framework
    cell.framework_packages cell.python_version repository username password
    (some platforms)

/-- The process environment as read by `main`: `REPOSITORY`, `USERNAME`,
`username`, `PASSWORD`, `password`, `MULTI_ARCH` (a missing variable is
`none`). -/
structure Env where
  REPOSITORY : Option String
  USERNAME : Option String
  usernameLowercase : Option String
  PASSWORD : Option String
  passwordLowercase : Option String
  MULTI_ARCH : Option String
  deriving DecidableEq, Repr

/-- Python truthiness of an optional string: `None` and `""` are falsy. -/
def pyTruthy : Option String → Bool
  | none => false
  | some s => !(s == "")

/-- Python `a or b` on optional strings: `b` when `a` is falsy. -/
def pyOr (a b : Option String) : Option String :=
  if pyTruthy a then a else b

/-- Python `s.lower()` (kernel-reducible model of `String.toLower`: it lowers
each character; the configuration strings involved are ASCII). -/
def pyLower (s : String) : String :=
  String.mk (s.data.map Char.toLower)

/-- Observable trace of one whole `main` run. -/
structure RunTrace where
  /-- The process exit code (`sys.exit(1)` or falling off the end = 0). -/
  exitCode : Nat
  /-- How many build tasks were created and dispatched. -/
  dispatched : Nat
  /-- Per-task outcomes in task order, as collected by
  `asyncio.gather(*tasks, return_exceptions=True)`; `none` when the run
  aborted before any task was dispatched. -/
  taskOutcomes : Option (List PublishOutcome)
  /-- `len(failures)`: the failure count the run reports. -/
  failureCount : Nat
  /-- Every destination URI on which a publish was attempted, across tasks. -/
  publishAttempts : List String
  deriving DecidableEq, Repr

/-- `main` from `src/main.py` (lines 239-292), named `mainRun` here: read configuration, gate on
credentials (`sys.exit(1)` before building any task when `USERNAME`/`username`
or `PASSWORD`/`password` is falsy), pick the platform list from `MULTI_ARCH`,
expand the matrix into tasks, gather all of them with
`return_exceptions=True`, count the exceptions among the results, and exit 1
when there are any. -/
def mainRun (env : Env) (engine : Engine) : RunTrace :=
  let repository := env.REPOSITORY.getD "wolfi-cuda-base-image"
  let username := pyOr env.USERNAME env.usernameLowercase
  let password := pyOr env.PASSWORD env.passwordLowercase
  let enable_multi_arch := pyLower (env.MULTI_ARCH.getD "false") == "true"
  if !pyTruthy username || !pyTruthy password then
    ⟨1, 0, none, 0, []⟩
  else
    let platforms_to_build := if enable_multi_arch then PLATFORMS else ["linux/amd64"]
    let results :=
      matrixCells.map
        (runCell engine repository (username.getD "") (password.getD "") platforms_to_build)
    let failures := results.filter fun r => r.raised.isSome
    ⟨if failures.length > 0 then 1 else 0, matrixCells.length, some results,
     failures.length, results.bind fun r => r.attempts⟩

example : (mainRun ⟨none, some "u", none, some "pw", none, none⟩ fun _ => none).exitCode
    = 0 := by decide

example : (mainRun ⟨none, some "u", none, some "pw", none, none⟩ fun _ => none).dispatched
    = 12 := by decide

example : (mainRun ⟨none, none, none, some "pw", none, none⟩ fun _ => none).dispatched
    = 0 := by decide

theorem splitChars_ne_nil (cs : List Char) : splitChars cs ≠ [] := by
  cases cs with
  | nil => simp [splitChars]
  | cons c rest => simp only [splitChars]; split <;> simp

theorem splitChars_of_no_slash (cs : List Char) (h : '/' ∉ cs) : splitChars cs = [cs] := by
  induction cs with
  | nil => rfl
  | cons c rest ih =>
    have hc : ¬ c = '/' := fun hc => h (hc ▸ List.mem_cons_self c rest)
    have hr : '/' ∉ rest := fun hm => h (List.mem_cons_of_mem c hm)
    simp [splitChars, ih hr, hc]

theorem two_le_length_splitChars (xs ys : List Char) :
    2 ≤ (splitChars (xs ++ '/' :: ys)).length := by
  induction xs with
  | nil =>
    obtain ⟨g, gs, hg⟩ := List.exists_cons_of_ne_nil (splitChars_ne_nil ys)
    simp [splitChars, hg]
  | cons c xs ih =>
    obtain ⟨g, gs, hg⟩ :=
      List.exists_cons_of_ne_nil (splitChars_ne_nil (xs ++ '/' :: ys))
    rw [hg] at ih
    simp only [List.cons_append, splitChars, List.append_eq, hg]
    split
    · simp
    · simp only [List.tail_cons, List.length_cons] at ih ⊢
      omega

theorem getLast?_splitChars_append (xs ys : List Char) (h : '/' ∉ ys) :
    (splitChars (xs ++ '/' :: ys)).getLast? = some ys := by
  induction xs with
  | nil => simp [splitChars, splitChars_of_no_slash ys h]
  | cons c xs ih =>
    obtain ⟨g, gs, hg⟩ :=
      List.exists_cons_of_ne_nil (splitChars_ne_nil (xs ++ '/' :: ys))
    have hlen := two_le_length_splitChars xs ys
    rw [hg] at ih hlen
    cases gs with
    | nil => simp at hlen
    | cons g2 gs2 =>
      simp only [List.cons_append, splitChars, List.append_eq, hg]
      rw [List.getLast?_cons_cons] at ih
      split
      · simpa [List.getLast?_cons_cons] using ih
      · simpa [List.getLast?_cons_cons] using ih

theorem pyLast_pySplit_slash (front back : String) (h : '/' ∉ back.data) :
    pyLast (pySplit (front ++ "/" ++ back)) = back := by
  have hdata : (front ++ "/" ++ back).data = front.data ++ '/' :: back.data := by
    simp [String.data_append]
  simp [pySplit, pyLast, hdata, List.getLast?_map, getLast?_splitChars_append _ _ h]

theorem pySplit_no_slash (p : String) (h : '/' ∉ p.data) : pySplit p = [p] := by
  simp [pySplit, splitChars_of_no_slash p.data h]

theorem slash_append_ne_empty (front back : String) : front ++ "/" ++ back ≠ "" := by
  intro hc
  have : (front ++ "/" ++ back).data = ("" : String).data := by rw [hc]
  simp [String.data_append] at this

/-- C6: the tag deriver returns exactly
`{os}_python_{pythonVersion}_cuda_{cudaVersion}_{framework}`, appending
`_{arch}` (the platform's component after the slash) exactly when a platform
is supplied, and on the concrete inputs of the claim it returns
`wolfi_python_3.11_cuda_12.4.1_base`, resp. appends `_arm64` for
`linux/arm64`. -/
theorem c6_tag_canonical_form :
    (∀ osv cuv fw pyv, get_image_reference osv cuv fw pyv none =
      osv ++ "_python_" ++ pyv ++ "_cuda_" ++ cuv ++ "_" ++ fw) ∧
    (∀ osv cuv fw pyv front arch, '/' ∉ arch.data →
      get_image_reference osv cuv fw pyv (some (front ++ "/" ++ arch)) =
        osv ++ "_python_" ++ pyv ++ "_cuda_" ++ cuv ++ "_" ++ fw ++ "_" ++ arch) ∧
    get_image_reference "wolfi" "12.4.1" "base" "3.11" none =
      "wolfi_python_3.11_cuda_12.4.1_base" ∧
    get_image_reference "wolfi" "12.4.1" "base" "3.11" (some "linux/arm64") =
      "wolfi_python_3.11_cuda_12.4.1_base_arm64" := by
  refine ⟨fun osv cuv fw pyv => rfl, fun osv cuv fw pyv front arch h => ?_,
    by decide, by decide⟩
  simp only [get_image_reference]
  rw [if_neg (slash_append_ne_empty front arch), pyLast_pySplit_slash front arch h]

/-- Witness for C6 at concrete inputs. -/
theorem c6_tag_canonical_form_witness :
    get_image_reference "wolfi" "12.4.1" "pytorch" "3.12" (some ("linux" ++ "/" ++ "arm64")) =
      "wolfi" ++ "_python_" ++ "3.12" ++ "_cuda_" ++ "12.4.1" ++ "_" ++ "pytorch" ++ "_" ++ "arm64" :=
  c6_tag_canonical_form.2.1 "wolfi" "12.4.1" "pytorch" "3.12" "linux" "arm64" (by decide)

/-- C4 counterexample: on the slash-less platform string `"amd64"` the tag
deriver does not fail; it silently returns a tag, with the entire malformed
platform string appended as the suffix. -/
theorem c4_counterexample :
    get_image_reference "wolfi" "12.4.1" "base" "3.11" (some "amd64") =
      "wolfi_python_3.11_cuda_12.4.1_base_amd64" ∧
    get_image_reference "wolfi" "12.4.1" "base" "3.11" (some "amd64") ≠
      get_image_reference "wolfi" "12.4.1" "base" "3.11" none := by decide

/-- C4 (amended): for every nonempty platform string with no slash, the tag
deriver silently appends the whole string as the architecture suffix
(`platform.split("/")[-1]` is the whole string); it is total and has no
failure mode at all. -/
theorem c4_no_validation (osv cuv fw pyv p : String) (hp : ¬ p = "")
    (h : '/' ∉ p.data) :
    get_image_reference osv cuv fw pyv (some p) =
      osv ++ "_python_" ++ pyv ++ "_cuda_" ++ cuv ++ "_" ++ fw ++ "_" ++ p := by
  simp only [get_image_reference]
  rw [if_neg hp, pySplit_no_slash p h]
  simp [pyLast]

/-- Witness for the amended C4 at the concrete input `"amd64"`. -/
theorem c4_no_validation_witness :
    get_image_reference "wolfi" "12.4.1" "base" "3.11" (some "amd64") =
      "wolfi" ++ "_python_" ++ "3.11" ++ "_cuda_" ++ "12.4.1" ++ "_" ++ "base" ++ "_" ++ "amd64" :=
  c4_no_validation "wolfi" "12.4.1" "base" "3.11" "amd64" (by decide) (by decide)

/-- All parameter tuples of the configured matrix, each with no platform or
one of the configured `PLATFORMS` (the tuple is `(osVersion, cudaVersion,
framework, pythonVersion, platform?)`). -/
def matrixTagTuples : List (String × String × String × String × Option String) :=
  OS_VERSIONS.bind fun osv =>
    CUDA_VERSIONS.bind fun cuv =>
      FRAMEWORK_CONFIGS.bind fun fw =>
        PYTHON_VERSIONS.bind fun pyv =>
          (none :: PLATFORMS.map some).map fun pl => (osv, cuv, fw.1, pyv, pl)

/-- The tag the deriver assigns to a parameter tuple. -/
def tagOfTuple : String × String × String × String × Option String → String
  | (osv, cuv, fw, pyv, pl) => get_image_reference osv cuv fw pyv pl

/-- C5: over the configured matrix (with the optional platform component) the
tag deriver is injective — two tuples with the same derived tag are equal. -/
theorem c5_tag_injective_on_matrix :
    ∀ t₁ ∈ matrixTagTuples, ∀ t₂ ∈ matrixTagTuples,
      tagOfTuple t₁ = tagOfTuple t₂ → t₁ = t₂ := by
  have hnd : (matrixTagTuples.map tagOfTuple).Nodup := by decide
  exact fun t₁ h₁ t₂ h₂ => List.inj_on_of_nodup_map hnd h₁ h₂

/-- Witness for C5 at a concrete tuple of the matrix. -/
theorem c5_tag_injective_on_matrix_witness :
    ("wolfi", "12.4.1", "base", "3.11", (none : Option String)) =
      ("wolfi", "12.4.1", "base", "3.11", (none : Option String)) :=
  c5_tag_injective_on_matrix _ (by decide) _ (by decide) rfl

/-- C10: whenever the credential gate passes, the orchestrator dispatches
exactly one task per cell of the configured matrix: the product of the
dimension sizes, which is 12 for the default matrix (1 × 2 × 3 × 2). -/
theorem c10_matrix_size (env : Env) (engine : Engine)
    (hu : pyTruthy (pyOr env.USERNAME env.usernameLowercase) = true)
    (hp : pyTruthy (pyOr env.PASSWORD env.passwordLowercase) = true) :
    (mainRun env engine).dispatched =
      OS_VERSIONS.length * CUDA_VERSIONS.length * FRAMEWORK_CONFIGS.length *
        PYTHON_VERSIONS.length ∧
    (mainRun env engine).dispatched = 12 := by
  have h1 : (mainRun env engine).dispatched = matrixCells.length := by
    simp [mainRun, hu, hp]
  exact ⟨by rw [h1]; decide, by rw [h1]; decide⟩

/-- Witness for C10 at a concrete environment and engine. -/
theorem c10_matrix_size_witness :
    (mainRun ⟨none, some "u", none, some "pw", none, none⟩ fun _ => none).dispatched
      = 12 :=
  (c10_matrix_size _ _ (by decide) (by decide)).2

/-- C8: when the registry username or secret is falsy (absent or empty), the
run aborts with exit code 1 before any task is dispatched: zero tasks, zero
publish attempts, and no per-task outcome at all. -/
theorem c8_credential_gate (env : Env) (engine : Engine)
    (h : pyTruthy (pyOr env.USERNAME env.usernameLowercase) = false ∨
         pyTruthy (pyOr env.PASSWORD env.passwordLowercase) = false) :
    mainRun env engine = ⟨1, 0, none, 0, []⟩ := by
  rcases h with h | h <;> simp [mainRun, h]

/-- Witness for C8: missing `USERNAME`/`username` aborts the run. -/
theorem c8_credential_gate_witness :
    mainRun ⟨none, none, none, some "pw", none, none⟩ (fun _ => none) =
      ⟨1, 0, none, 0, []⟩ :=
  c8_credential_gate _ _ (Or.inl (by decide))

/-- C2: with credentials present, the run collects one terminal outcome per
dispatched task, each outcome being the independent run of its own cell
(sibling failures cannot cancel or skip it), reports exactly the number of
failed tasks as its failure count, and exits 1 whenever that count is
nonzero. -/
theorem c2_collect_all (env : Env) (engine : Engine)
    (hu : pyTruthy (pyOr env.USERNAME env.usernameLowercase) = true)
    (hp : pyTruthy (pyOr env.PASSWORD env.passwordLowercase) = true) :
    ∃ outcomes : List PublishOutcome,
      (mainRun env engine).taskOutcomes = some outcomes ∧
      outcomes.length = (mainRun env engine).dispatched ∧
      (∀ i : Nat, outcomes.get? i = (matrixCells.get? i).map
        (runCell engine (env.REPOSITORY.getD "wolfi-cuda-base-image")
          ((pyOr env.USERNAME env.usernameLowercase).getD "")
          ((pyOr env.PASSWORD env.passwordLowercase).getD "")
          (if pyLower (env.MULTI_ARCH.getD "false") == "true" then PLATFORMS
           else ["linux/amd64"]))) ∧
      (mainRun env engine).failureCount =
        (outcomes.filter fun o => o.raised.isSome).length ∧
      (0 < (mainRun env engine).failureCount → (mainRun env engine).exitCode = 1) := by
  refine ⟨matrixCells.map
    (runCell engine (env.REPOSITORY.getD "wolfi-cuda-base-image")
      ((pyOr env.USERNAME env.usernameLowercase).getD "")
      ((pyOr env.PASSWORD env.passwordLowercase).getD "")
      (if pyLower (env.MULTI_ARCH.getD "false") == "true" then PLATFORMS
       else ["linux/amd64"])), ?_, ?_, ?_, ?_, ?_⟩
  · simp [mainRun, hu, hp]
  · simp [mainRun, hu, hp]
  · intro i
    exact List.get?_map _ _ _
  · simp [mainRun, hu, hp]
  · intro hpos
    simp only [mainRun, hu, hp] at hpos ⊢
    simp only [Bool.not_true, Bool.or_self, Bool.false_or, if_false] at hpos ⊢
    split at hpos <;> split <;> simp_all

/-- Witness for C2: one simulated engine failure out of 12 tasks still yields
exit code 1. -/
theorem c2_collect_all_witness :
    (mainRun ⟨none, some "u", none, some "pw", none, none⟩ fun uri =>
      if uri == "ghcr.io/u/wolfi-cuda-base-image:wolfi_python_3.11_cuda_12.4.1_base"
      then some "boom" else none).exitCode = 1 := by
  obtain ⟨outcomes, -, -, -, -, h5⟩ :=
    c2_collect_all ⟨none, some "u", none, some "pw", none, none⟩
      (fun uri =>
        if uri == "ghcr.io/u/wolfi-cuda-base-image:wolfi_python_3.11_cuda_12.4.1_base"
        then some "boom" else none)
      (by decide) (by decide)
  exact h5 (by decide)

/-- C7 counterexample: a run with missing credentials (a configuration error,
no task dispatched) and a run in which tasks fail both exit with the same
code 1, so the task-failure exit code is not distinguishable from the
configuration-error exit code. -/
theorem c7_counterexample :
    (mainRun ⟨none, none, none, none, none, none⟩ fun _ => none).exitCode = 1 ∧
    (mainRun ⟨none, none, none, none, none, none⟩ fun _ => none).taskOutcomes = none ∧
    (mainRun ⟨none, some "u", none, some "pw", none, none⟩ fun _ => some "boom").exitCode
      = 1 ∧
    0 < (mainRun ⟨none, some "u", none, some "pw", none, none⟩
      fun _ => some "boom").failureCount := by decide

/-- C7 (amended): the process exits 0 exactly when the credential gate passes
and every dispatched task succeeded; it exits 1 both when credentials are
missing and when any task failed — the same code 1, not distinguishable by
exit code. -/
theorem c7_exit_codes (env : Env) (engine : Engine) :
    ((pyTruthy (pyOr env.USERNAME env.usernameLowercase) = false ∨
      pyTruthy (pyOr env.PASSWORD env.passwordLowercase) = false) →
        (mainRun env engine).exitCode = 1) ∧
    (pyTruthy (pyOr env.USERNAME env.usernameLowercase) = true →
      pyTruthy (pyOr env.PASSWORD env.passwordLowercase) = true →
        ((mainRun env engine).exitCode = 0 ↔ (mainRun env engine).failureCount = 0)) := by
  constructor
  · intro h
    rcases h with h | h <;> simp [mainRun, h]
  · intro hu hp
    simp only [mainRun, hu, hp]
    simp only [Bool.not_true, Bool.or_self, Bool.false_or, if_false]
    split <;> rename_i hcond <;> simp_all

/-- Witness for the amended C7: a missing-credentials run exits 1, and an
all-success run exits 0. -/
theorem c7_exit_codes_witness :
    (mainRun ⟨none, none, none, some "pw", none, none⟩ fun _ => none).exitCode = 1 ∧
    (mainRun ⟨none, some "u", none, some "pw", none, none⟩ fun _ => none).exitCode = 0 :=
  ⟨(c7_exit_codes ⟨none, none, none, some "pw", none, none⟩ fun _ => none).1
      (Or.inl (by decide)),
   ((c7_exit_codes ⟨none, some "u", none, some "pw", none, none⟩ fun _ => none).2
      (by decide) (by decide)).mpr (by decide)⟩

/-- C1: in a multi-platform task whose per-architecture pushes all succeed,
`build_and_publish_image` publishes only the two architecture-qualified tags
and logs `Successfully published multi-arch: {image_uri}` — but never invokes
publish on the un-qualified logical tag, contradicting its own log message
(and leaving the collected `platform_variants` unused). -/
theorem c1_manifest_never_published :
    build_and_publish_image (fun _ => none) "wolfi" "12.4.1" "base" "" "3.11"
      "wolfi-cuda-base-image" "user" "pw" (some ["linux/amd64", "linux/arm64"]) =
      ⟨[some "linux/amd64", some "linux/arm64"],
       ["ghcr.io/user/wolfi-cuda-base-image:wolfi_python_3.11_cuda_12.4.1_base_amd64",
        "ghcr.io/user/wolfi-cuda-base-image:wolfi_python_3.11_cuda_12.4.1_base_arm64"],
       ["ghcr.io/user/wolfi-cuda-base-image:wolfi_python_3.11_cuda_12.4.1_base_amd64",
        "ghcr.io/user/wolfi-cuda-base-image:wolfi_python_3.11_cuda_12.4.1_base_arm64"],
       ["Published platform-specific: ghcr.io/user/wolfi-cuda-base-image:wolfi_python_3.11_cuda_12.4.1_base_amd64",
        "Published platform-specific: ghcr.io/user/wolfi-cuda-base-image:wolfi_python_3.11_cuda_12.4.1_base_arm64",
        "Successfully published multi-arch: ghcr.io/user/wolfi-cuda-base-image:wolfi_python_3.11_cuda_12.4.1_base"],
       none⟩ ∧
    "ghcr.io/user/wolfi-cuda-base-image:wolfi_python_3.11_cuda_12.4.1_base"
      ∉ (build_and_publish_image (fun _ => none) "wolfi" "12.4.1" "base" "" "3.11"
          "wolfi-cuda-base-image" "user" "pw"
          (some ["linux/amd64", "linux/arm64"])).attempts := by decide

/-- C3 counterexample: when the engine raises `"boom"` for a task, the
coroutine re-raises the raw `"boom"` across the task boundary — the
propagated value is not an outcome record and carries no trace of the task's
tag (the tag appears only in the log record). -/
theorem c3_counterexample :
    let o := build_and_publish_image (fun _ => some "boom") "wolfi" "12.4.1" "base" ""
      "3.11" "wolfi-cuda-base-image" "user" "pw" (some ["linux/amd64"])
    o.raised = some "boom" ∧
    ¬ List.IsInfix ("wolfi_python_3.11_cuda_12.4.1_base".data) ("boom".data) ∧
    "Failed to build wolfi_python_3.11_cuda_12.4.1_base: boom" ∈ o.logs := by decide

theorem multiPlatformLoop_raised (engine : Engine)
    (osv cuv fw pyv user repo : String) :
    ∀ (pls : List String) (e : String),
      (multiPlatformLoop engine osv cuv fw pyv user repo pls).2.2.2.2 = some e →
      ∃ uri ∈ (multiPlatformLoop engine osv cuv fw pyv user repo pls).2.1,
        engine uri = some e := by
  intro pls
  induction pls with
  | nil => intro e h; simp [multiPlatformLoop] at h
  | cons pl rest ih =>
    intro e h
    rcases hT : multiPlatformLoop engine osv cuv fw pyv user repo rest
      with ⟨s, a, p, l, r⟩
    rw [hT] at ih
    cases heng : engine (imageUriOf user repo
        (get_image_reference osv cuv fw pyv (some pl))) with
    | some eFirst =>
      simp only [multiPlatformLoop, heng] at h ⊢
      simp at h
      subst h
      simp [heng]
    | none =>
      simp only [multiPlatformLoop, heng, hT] at h ⊢
      obtain ⟨uri, hmem, huri⟩ := ih e h
      exact ⟨uri, List.mem_cons_of_mem _ hmem, huri⟩

/-- C3 (amended): any publish failure of a task — single-platform or a
per-architecture push inside a multi-platform task — is caught at the
Publisher boundary only to log a record annotated with the task's tag
(`Failed to build {tag}: {e}`); what crosses the task boundary is the raw
exception of the failing publish attempt, unchanged. -/
theorem c3_failure_logged_and_reraised (engine : Engine)
    (osv cuv fw fwp pyv repo user pass : String) (platforms : Option (List String))
    (e : String)
    (h : (build_and_publish_image engine osv cuv fw fwp pyv repo user pass
      platforms).raised = some e) :
    (∃ uri ∈ (build_and_publish_image engine osv cuv fw fwp pyv repo user pass
        platforms).attempts, engine uri = some e) ∧
    ("Failed to build " ++ get_image_reference osv cuv fw pyv none ++ ": " ++ e)
      ∈ (build_and_publish_image engine osv cuv fw fwp pyv repo user pass
          platforms).logs := by
  cases platforms with
  | none =>
    cases heng : engine (imageUriOf user repo
        (get_image_reference osv cuv fw pyv none)) with
    | none => simp [build_and_publish_image, heng] at h
    | some eRaw =>
      simp only [build_and_publish_image, heng] at h ⊢
      simp at h
      subst h
      simp [heng]
  | some pls =>
    by_cases hlen : pls.length > 1
    · rcases hT : multiPlatformLoop engine osv cuv fw pyv user repo pls
        with ⟨s, a, p, l, r⟩
      cases r with
      | none => simp [build_and_publish_image, hlen, hT] at h
      | some eRaw =>
        simp only [build_and_publish_image, hlen, hT] at h ⊢
        simp at h
        subst h
        have hloop := multiPlatformLoop_raised engine osv cuv fw pyv user repo pls eRaw
          (by rw [hT])
        rw [hT] at hloop
        simp only at hloop
        obtain ⟨uri, hmem, huri⟩ := hloop
        exact ⟨⟨uri, hmem, huri⟩, by simp⟩
    · cases heng : engine (imageUriOf user repo
          (get_image_reference osv cuv fw pyv none)) with
      | none => simp [build_and_publish_image, hlen, heng] at h
      | some eRaw =>
        simp only [build_and_publish_image, hlen, heng] at h ⊢
        simp at h
        subst h
        simp [heng]

/-- Witness for the amended C3: a two-platform task whose second
per-architecture push fails still logs the tag-annotated failure record. -/
theorem c3_failure_logged_and_reraised_witness :
    ("Failed to build " ++ get_image_reference "wolfi" "12.6.0" "pytorch" "3.12" none
        ++ ": " ++ "push failed")
      ∈ (build_and_publish_image
          (fun uri => if uri ==
            "ghcr.io/user/wolfi-cuda-base-image:wolfi_python_3.12_cuda_12.6.0_pytorch_arm64"
            then some "push failed" else none)
          "wolfi" "12.6.0" "pytorch" "pytorch" "3.12" "wolfi-cuda-base-image" "user"
          "pw" (some ["linux/amd64", "linux/arm64"])).logs :=
  (c3_failure_logged_and_reraised
    (fun uri => if uri ==
      "ghcr.io/user/wolfi-cuda-base-image:wolfi_python_3.12_cuda_12.6.0_pytorch_arm64"
      then some "push failed" else none)
    "wolfi" "12.6.0" "pytorch" "pytorch" "3.12" "wolfi-cuda-base-image" "user" "pw"
    (some ["linux/amd64", "linux/arm64"]) "push failed" (by decide)).2

/-- C9 counterexample: in a single-platform run as `main` dispatches it
(`platforms_to_build = ["linux/amd64"]`), the one build specification carries
the platform qualifier `linux/amd64` — not the absence of a qualifier the
claim states. -/
theorem c9_counterexample :
    (build_and_publish_image (fun _ => none) "wolfi" "12.4.1" "base" "" "3.11"
      "wolfi-cuda-base-image" "user" "pw" (some ["linux/amd64"])).specs =
      [some "linux/amd64"] ∧
    [some "linux/amd64"] ≠ [(none : Option String)] := by decide

theorem multiPlatformLoop_specs_all_ok (engine : Engine)
    (osv cuv fw pyv user repo : String) (h : ∀ u, engine u = none) :
    ∀ pls : List String,
      (multiPlatformLoop engine osv cuv fw pyv user repo pls).1 = pls.map some := by
  intro pls
  induction pls with
  | nil => rfl
  | cons pl rest ih =>
    rcases hT : multiPlatformLoop engine osv cuv fw pyv user repo rest
      with ⟨s, a, p, l, r⟩
    rw [hT] at ih
    simp only [multiPlatformLoop, h, hT, List.map_cons]
    simpa using ih

/-- C9 (amended): a task given exactly one platform produces exactly one
build specification, qualified with that platform; only a task given no
platform list produces a specification with no qualifier; and a
multi-platform task (all pushes succeeding) produces one specification per
platform. -/
theorem c9_single_spec (engine : Engine) (osv cuv fw fwp pyv repo user pass pl : String) :
    (build_and_publish_image engine osv cuv fw fwp pyv repo user pass (some [pl])).specs =
      [some pl] ∧
    (build_and_publish_image engine osv cuv fw fwp pyv repo user pass none).specs =
      [none] ∧
    (∀ pls : List String, 1 < pls.length → (∀ u, engine u = none) →
      (build_and_publish_image engine osv cuv fw fwp pyv repo user pass
        (some pls)).specs = pls.map some) := by
  refine ⟨?_, ?_, ?_⟩
  · cases h : engine (imageUriOf user repo (get_image_reference osv cuv fw pyv none)) <;>
      simp [build_and_publish_image, h]
  · cases h : engine (imageUriOf user repo (get_image_reference osv cuv fw pyv none)) <;>
      simp [build_and_publish_image, h]
  · intro pls hlen hok
    rcases hT : multiPlatformLoop engine osv cuv fw pyv user repo pls
      with ⟨s, a, p, l, r⟩
    have hs := multiPlatformLoop_specs_all_ok engine osv cuv fw pyv user repo hok pls
    rw [hT] at hs
    simp only at hs
    cases r <;> simp [build_and_publish_image, hT, hlen, hs]

/-- Witness for the amended C9 at concrete inputs: one platform, no platform
list, and a two-platform all-success task. -/
theorem c9_single_spec_witness :
    (build_and_publish_image (fun _ => none) "wolfi" "12.6.0" "tensorflow" "tensorflow"
      "3.12" "wolfi-cuda-base-image" "user" "pw" (some ["linux/arm64"])).specs =
      [some "linux/arm64"] ∧
    (build_and_publish_image (fun _ => none) "wolfi" "12.6.0" "tensorflow" "tensorflow"
      "3.12" "wolfi-cuda-base-image" "user" "pw" none).specs = [none] ∧
    (build_and_publish_image (fun _ => none) "wolfi" "12.6.0" "tensorflow" "tensorflow"
      "3.12" "wolfi-cuda-base-image" "user" "pw"
      (some ["linux/amd64", "linux/arm64"])).specs =
      List.map some ["linux/amd64", "linux/arm64"] :=
  ⟨(c9_single_spec (fun _ => none) "wolfi" "12.6.0" "tensorflow" "tensorflow" "3.12"
      "wolfi-cuda-base-image" "user" "pw" "linux/arm64").1,
   (c9_single_spec (fun _ => none) "wolfi" "12.6.0" "tensorflow" "tensorflow" "3.12"
      "wolfi-cuda-base-image" "user" "pw" "linux/arm64").2.1,
   (c9_single_spec (fun _ => none) "wolfi" "12.6.0" "tensorflow" "tensorflow" "3.12"
      "wolfi-cuda-base-image" "user" "pw" "linux/arm64").2.2
      ["linux/amd64", "linux/arm64"] (by decide) (fun _ => rfl)⟩
